import Mathlib

/-!
Shallow embedding of `jax/_src/cudnn/fused_attention_stablehlo.py`:
the cuDNN fused multi-head attention dispatch subsystem (layout/shape
validation, backend-configuration building, custom-call emission,
batching and sharding-partition rules).

Machine scalars are modelled as `Nat`/`Int`; array contents never matter
for these claims, only shapes, dtypes, sharding specs and configuration
records, so tensors are modelled by their shape/dtype metadata.  Fallible
Python code (raising `ValueError` / `NotImplementedError` / ...) is
modelled with `Except String` (or a small error inductive where the claim
distinguishes error kinds).
-/

namespace FusedAttn

/-- Element dtypes relevant to this module (`jnp.bfloat16`, `jnp.float16`,
`jnp.float32`, `jnp.int32`, `jnp.bool`). -/
inductive Dtype
  | bf16
  | f16
  | f32
  | i32
  | boolTy
  deriving DecidableEq, Repr

/-- `class AttentionLayout(enum.Enum): BTNH = 0; BNTH = 1`. -/
inductive AttentionLayout
  | BTNH
  | BNTH
  deriving DecidableEq, Repr

/-- The `.value` of the Python enum member. -/
def AttentionLayout.value : AttentionLayout → Nat
  | .BTNH => 0
  | .BNTH => 1

/-- `class MaskType(enum.Enum)` with members NO_MASK..ALIBI. -/
inductive MaskType
  | NO_MASK
  | PADDING
  | CAUSAL
  | PADDING_CAUSAL
  | ALIBI
  deriving DecidableEq, Repr

/-- `convert_mask_type_to_string` (the final `raise` branch is
unreachable over the enum, so the function is total here). -/
def convert_mask_type_to_string : MaskType → String
  | .NO_MASK => "NO_MASK"
  | .PADDING => "PADDING"
  | .CAUSAL => "CAUSAL"
  | .PADDING_CAUSAL => "PADDING_CAUSAL"
  | .ALIBI => "ALIBI"

/-- `has_padding(mask_type)`. -/
def has_padding (mask_type : MaskType) : Bool :=
  mask_type = MaskType.PADDING || mask_type = MaskType.PADDING_CAUSAL

/-- `should_export_dbias(bias_shape, query_shape, layout)`: Python
destructures `b_B, b_N, _, _ = bias_shape` and picks the head-count axis
of `query_shape` by `layout` (an enum `.value` integer), then returns
`b_B == 1 and b_N == q_N`.  A destructuring failure (non-rank-4 shape)
raises, modelled by `Except.error`. -/
def should_export_dbias (bias_shape query_shape : List Nat) (layout : Nat) :
    Except String Bool :=
  match bias_shape with
  | [b_B, b_N, _, _] =>
    if layout = AttentionLayout.BNTH.value then
      match query_shape with
      | [_, q_N, _, _] => .ok (b_B = 1 && b_N = q_N)
      | _ => .error "too many values to unpack"
    else
      match query_shape with
      | [_, _, q_N, _] => .ok (b_B = 1 && b_N = q_N)
      | _ => .error "too many values to unpack"
  | _ => .error "too many values to unpack"

/-- `get_large_negative_number(dtype)`: returns `jnp.asarray(-2 << 40)`
for bfloat16 and `jnp.asarray(-2 << 14)` for float16, else raises
`ValueError`.  In Python `-2 << n` is `(-2) * 2^n`; both results are
negated powers of two, hence exactly representable in the target 16-bit
float format, so the value is modelled by that integer. -/
def get_large_negative_number (dtype : Dtype) : Except String Int :=
  if dtype = Dtype.bf16 then
    .ok ((-2) * 2 ^ 40)
  else if dtype = Dtype.f16 then
    .ok ((-2) * 2 ^ 14)
  else
    .error "Unsupported dtype for inputs."

/-- The boolean-mask fold of `dot_product_attention`
(`jnp.where(mask, jnp.asarray(0, query.dtype), large_negative_number)`),
per mask element: a true (unmasked) position becomes `0`, a false
(masked) position becomes the large negative sentinel for the query
dtype. -/
def mask_to_bias_value (query_dtype : Dtype) (m : Bool) :
    Except String Int := do
  let large_negative_number ← get_large_negative_number query_dtype
  pure (if m then 0 else large_negative_number)

/-- The sliding-window validation of the public `dot_product_attention`
operator: `if sliding_window_length is not None and
sliding_window_length <= 0: raise ValueError(...)`. -/
def dpa_check_sliding_window_length (sliding_window_length : Option Int) :
    Except String Unit :=
  match sliding_window_length with
  | some v =>
    if v ≤ 0 then .error "Require sliding_window_length > 0"
    else .ok ()
  | none => .ok ()

/-- How `create_dot_product_attention_backend_config` serializes the
window length: `if sliding_window_length is None: sliding_window_length
= 0`. -/
def serialize_sliding_window_length (sliding_window_length : Option Int) :
    Int :=
  match sliding_window_length with
  | some v => v
  | none => 0

/-- Python `str.upper()` (per-character upper-casing; Lean's
`Char.toUpper` matches Python on the ASCII layout strings at issue). -/
def pyUpper (s : String) : String := ⟨s.data.map Char.toUpper⟩

/-- Python `str.replace(pat, repl)` restricted to a one-character
pattern and replacement, where it is exactly a per-character
substitution. -/
def pyReplaceChar (pat repl : Char) (s : String) : String :=
  ⟨s.data.map (fun c => if c = pat then repl else c)⟩

/-- Python enum lookup `AttentionLayout[name]` (by member name). -/
def attentionLayoutByName (name : String) : Option AttentionLayout :=
  if name = "BTNH" then some .BTNH
  else if name = "BNTH" then some .BNTH
  else none

/-- `_normalize_layout(layout)`: upper-cases the string, accepts exactly
BSNH/BNSH/BTNH/BNTH, and resolves the enum member after replacing "S" by
"T"; anything else raises `ValueError`. -/
def _normalize_layout (layout : String) : Except String AttentionLayout :=
  let layout_upper := pyUpper layout
  if layout_upper ∈ ["BSNH", "BNSH", "BTNH", "BNTH"] then
    match attentionLayoutByName (pyReplaceChar 'S' 'T' layout_upper) with
    | some l => .ok l
    | none => .error "unreachable"
  else
    .error "Unsupported qkv_layout"

/-- Metadata of an array argument: its shape and element dtype (array
contents are irrelevant to every property below). -/
structure TensorInfo where
  shape : List Nat
  dtype : Dtype
  deriving DecidableEq, Repr

/-- The q_seqlen checks of `check_layout`: int32 dtype, rank 1, length
equal to the query batch, in source order. -/
def check_q_seqlen (q_seqlen : Option TensorInfo) (qB : Nat) :
    Except String Unit :=
  match q_seqlen with
  | some qs =>
    if qs.dtype ≠ Dtype.i32 then .error "q_seqlen must have int32 datatype"
    else if qs.shape.length ≠ 1 then .error "q_seqlen must have a rank of 1"
    else if qs.shape.getD 0 0 ≠ qB then
      .error "q_seqlen must have same batch as Q"
    else .ok ()
  | none => .ok ()

/-- The kv_seqlen checks of `check_layout` (same structure, its own
messages). -/
def check_kv_seqlen (kv_seqlen : Option TensorInfo) (qB : Nat) :
    Except String Unit :=
  match kv_seqlen with
  | some ks =>
    if ks.dtype ≠ Dtype.i32 then .error "kv_seqlen must have int32 datatype"
    else if ks.shape.length ≠ 1 then .error "kv_seq_rank must have a rank of 1"
    else if ks.shape.getD 0 0 ≠ qB then
      .error "kv_seqlen must have same batch as Q"
    else .ok ()
  | none => .ok ()

/-- The two sequence-length blocks of `check_layout` in order (q then
kv; the first failure raises). -/
def check_seqlens (q_seqlen kv_seqlen : Option TensorInfo) (qB : Nat) :
    Except String Unit :=
  match check_q_seqlen q_seqlen qB with
  | .error e => .error e
  | .ok _ => check_kv_seqlen kv_seqlen qB

/-- The bias block of `check_layout` (`_, _, bT, bS = bias.shape`;
`bT != qT or bS != vS` raises) followed by the sequence-length
blocks. -/
def check_bias_and_seqlens (bias q_seqlen kv_seqlen : Option TensorInfo)
    (qT vS qB : Nat) : Except String Unit :=
  match bias with
  | some b =>
    match b.shape with
    | [_, _, bT, bS] =>
      if bT ≠ qT ∨ bS ≠ vS then
        .error "Bias must have same seq length as QKV"
      else check_seqlens q_seqlen kv_seqlen qB
    | _ => .error "values to unpack"
  | none => check_seqlens q_seqlen kv_seqlen qB

/-- `check_layout(query, key, value, bias, q_seqlen, kv_seqlen, layout)`:
the source's sequence of raise-checks written as nested conditionals in
source order — rank checks (`check_eq` on ranks), dtype checks
(`check_eq` on dtypes), layout-directed destructuring of the three
rank-4 shapes into (batch, seq, head-count, head-size) roles, pairwise
batch and head-size checks, key/value head-count and sequence-length
checks, the bias trailing-axes check (`_, _, bT, bS = bias.shape`), and
the two sequence-length vector checks. -/
def check_layout (query key value : TensorInfo)
    (bias q_seqlen kv_seqlen : Option TensorInfo)
    (layout : AttentionLayout) : Except String Unit :=
  if query.shape.length ≠ 4 then .error "Q must have a rank of 4"
  else if ¬(query.shape.length = key.shape.length ∧
            key.shape.length = value.shape.length) then
    .error "QKV rank must be same"
  else if ¬(query.dtype = Dtype.bf16 ∨ query.dtype = Dtype.f16) then
    .error "Q must be fp16 or bf16"
  else if ¬(query.dtype = key.dtype ∧ key.dtype = value.dtype) then
    .error "QKV dtype must be same"
  else
    match query.shape, key.shape, value.shape with
    | [a0, a1, a2, a3], [c0, c1, c2, c3], [d0, d1, d2, d3] =>
      -- BNTH reads (B, N, T, H) positions, BTNH reads (B, T, N, H)
      let qB := a0
      let qT := if layout = AttentionLayout.BNTH then a2 else a1
      let qH := a3
      let kB := c0
      let kS := if layout = AttentionLayout.BNTH then c2 else c1
      let kN := if layout = AttentionLayout.BNTH then c1 else c2
      let kH := c3
      let vB := d0
      let vS := if layout = AttentionLayout.BNTH then d2 else d1
      let vN := if layout = AttentionLayout.BNTH then d1 else d2
      let vH := d3
      if ¬(qB = kB ∧ kB = vB) then .error "QKV batch must be same"
      else if ¬(qH = kH ∧ kH = vH) then
        .error "QKV dim_per_head must be same"
      else if kN ≠ vN then .error "KV must have same number of heads"
      else if kS ≠ vS then .error "KV must have same seq length"
      else check_bias_and_seqlens bias q_seqlen kv_seqlen qT vS qB
    | _, _, _ => .error "unreachable: ranks were checked above"

/-- Error kinds of `check_is_flash_attention`: Python raises
`NotImplementedError` for unsupported attention patterns and
`RuntimeError` for a too-old cuDNN. -/
inductive FlashCheckError
  | notImplemented (msg : String)
  | runtimeError (msg : String)
  | valueError (msg : String)
  deriving DecidableEq, Repr

/-- `check_is_flash_attention(query, key, layout, cudnn_version,
has_bias, is_training)` over the query/key shapes: extracts T, H from
query and S from key according to the layout `.value` integer, raises
`NotImplementedError` unless `H <= 128 and H % 8 == 0` and (when
training with bias) both sequence lengths are even, then raises
`RuntimeError` when `cudnn_version < 8904`. -/
def check_is_flash_attention (query_shape key_shape : List Nat)
    (layout : Nat) (cudnn_version : Nat) (has_bias is_training : Bool) :
    Except FlashCheckError Unit := do
  let (T, H, S) ←
    if layout = AttentionLayout.BNTH.value then
      match query_shape, key_shape with
      | [_, _, T, H], [_, _, S, _] => Except.ok (T, H, S)
      | _, _ => Except.error (.valueError "values to unpack")
    else
      match query_shape, key_shape with
      | [_, T, _, H], [_, S, _, _] => Except.ok (T, H, S)
      | _, _ => Except.error (.valueError "values to unpack")
  if ¬((H ≤ 128 ∧ H % 8 = 0) ∧
       (¬is_training = true ∨ ¬has_bias = true ∨ (T % 2 = 0 ∧ S % 2 = 0))) then
    Except.error (.notImplemented "Unsupported sequence length and head dim.")
  else if cudnn_version < 8904 then
    Except.error (.runtimeError
      "JAX requires cuDNN >= 8.9.4 to use flash cross attention.")
  else Except.ok ()

/-! ## Sharding partitioner (custom_partitioning rules) -/

/-- A PartitionSpec, one entry per tensor axis: `some a` = sharded along
mesh axis `a`, `none` = unsharded (a padded spec, as produced by
`_get_padded_spec`, so its length equals the tensor rank). -/
abbrev ShardingSpec := List (Option String)

/-- Python `*rest, x, y, z = l` (unpacking the last three elements;
`none` when the list is too short, where Python raises `ValueError`). -/
def splitLast3 (l : ShardingSpec) :
    Option (ShardingSpec × Option String × Option String × Option String) :=
  match l.reverse with
  | z :: y :: x :: rest => some (rest.reverse, x, y, z)
  | _ => none

/-- `_check_qkv_bias_mask_spec(query_spec, key_spec, value_spec,
bias_spec)`: query/key/value must have identical specs, the (assumed
BTNH-ordered) sequence and head-size entries must be unsharded; when a
bias spec is given, its batch entries must match query's whenever any of
them is sharded, its head entry must match query's whenever sharded, and
its two sequence entries must be unsharded. -/
def _check_qkv_bias_mask_spec (query_spec key_spec value_spec : ShardingSpec)
    (bias_spec : Option ShardingSpec) : Except String Unit :=
  if ¬(query_spec = key_spec ∧ key_spec = value_spec) then
    .error "Query, key and value should have same sharding."
  else
    match splitLast3 query_spec with
    | none => .error "values to unpack"
    | some (batch_spec, q_seq_spec, num_head_spec, head_spec) =>
      if q_seq_spec.isSome then
        .error "Sharding on sequence dim is not allowed."
      else if head_spec.isSome then
        .error "Sharding on head dim is not allowed."
      else
        match bias_spec with
        | none => .ok ()
        | some bs =>
          match splitLast3 bs with
          | none => .error "values to unpack"
          | some (bias_batch_spec, bias_num_head_spec,
                  bias_q_seq_spec, bias_kv_seq_spec) =>
            if (bias_batch_spec.any (·.isSome) ∧ bias_batch_spec ≠ batch_spec)
                ∨ (bias_num_head_spec.isSome
                   ∧ bias_num_head_spec ≠ num_head_spec) then
              .error
                "Query and bias should have same sharding on batch and num_head dim."
            else if bias_q_seq_spec.isSome ∨ bias_kv_seq_spec.isSome then
              .error "Sharding on bias sequence dim is not allowed."
            else .ok ()

/-- `_infer_fwd_output_sharding` (a `NamedSharding` is modelled by its
spec): output sharding = query's; in training additionally the softmax
stat sharding `(*batch, num_head, q_seq, None)`. -/
def _infer_fwd_output_sharding (query_spec key_spec value_spec : ShardingSpec)
    (bias_spec : Option ShardingSpec) (is_training : Bool) :
    Except String (List ShardingSpec) := do
  _check_qkv_bias_mask_spec query_spec key_spec value_spec bias_spec
  let out_sharding := query_spec
  if is_training then
    match splitLast3 query_spec with
    | some (batch_spec, q_seq_spec, num_head_spec, _) =>
      pure [out_sharding, batch_spec ++ [num_head_spec, q_seq_spec, none]]
    | none => .error "values to unpack"
  else
    pure [out_sharding]

/-- `_infer_bwd_output_sharding`: grad_query sharding = query's,
grad_key and grad_value shardings = key's, plus grad_bias sharding =
bias's when `has_dbias`. -/
def _infer_bwd_output_sharding (query_spec key_spec value_spec : ShardingSpec)
    (bias_spec : Option ShardingSpec) (has_dbias : Bool) :
    Except String (List ShardingSpec) := do
  _check_qkv_bias_mask_spec query_spec key_spec value_spec bias_spec
  let grad_query_sharding := query_spec
  let grad_key_sharding := key_spec
  let grad_value_sharding := key_spec
  let out_shardings := [grad_query_sharding, grad_key_sharding,
                        grad_value_sharding]
  if has_dbias then
    match bias_spec with
    | some bs => pure (out_shardings ++ [bs])
    | none => .error "TypeError"
  else
    pure out_shardings

/-- Symbolic local gradients of the backward primitive, as seen by the
partitioned implementation (their numeric contents are opaque here);
`psum axis g` records a cross-shard sum-reduction of `g` over the mesh
axis `axis`. -/
inductive Grad
  | dquery
  | dkey
  | dvalue
  | dbias
  | psum (axis : Option String) (g : Grad)
  deriving DecidableEq, Repr

/-- The `sharded_impl` closure of `_dot_product_attention_bwd_partition`:
takes the local gradients produced by `_dot_product_attention_bwd_impl`
(3 without, 4 with `has_dbias`) and, when `has_dbias`, replaces the
bias gradient by `jax.lax.psum(local_dbias, batch_spec)` where
`batch_spec = query_spec[0]` is the first entry of the query sharding
spec recorded in `arg_shardings[0]`. -/
def _dot_product_attention_bwd_partition_sharded_impl
    (query_spec : ShardingSpec) (has_dbias : Bool) :
    Except String (List Grad) :=
  let grads : List Grad :=
    Grad.dquery :: Grad.dkey :: Grad.dvalue ::
      (if has_dbias then [Grad.dbias] else [])
  if has_dbias then
    match query_spec.head? with
    | some batch_spec =>
      .ok (grads.take 3 ++ [Grad.psum batch_spec (grads.getD 3 Grad.dbias)])
    | none => .error "tuple index out of range"
  else
    .ok grads

/-! ## Backend configuration builder -/

/-- The fixed `algorithm` sub-block of the backend config. -/
structure AlgorithmBlock where
  algo_id : String
  math_type : String
  tuning_knobs : List (String × String)
  is_cudnn_frontend : Bool
  workspace_size : String
  deriving DecidableEq, Repr

/-- The `layout` sub-block of `intermediate_tensor_shape` (numeric
fields that the source serializes as JSON strings are kept as numbers;
the JSON stringification itself is outside the model). -/
structure ShapeLayoutBlock where
  dim_level_types : List String
  dim_unique : List Bool
  dim_ordered : List Bool
  minor_to_major : List Nat
  tiles : List String
  element_size_in_bits : Nat
  memory_space : Nat
  index_primitive_type : String
  pointer_primitive_type : String
  dynamic_shape_metadata_prefix_bytes : Nat
  deriving DecidableEq, Repr

/-- The `intermediate_tensor_shape` descriptor. -/
structure IntermediateTensorShape where
  element_type : String
  dimensions : List Nat
  tuple_shapes : List String
  layout : ShapeLayoutBlock
  is_dynamic_dimension : List Bool
  deriving DecidableEq, Repr

/-- One dot-dimension-numbers block
(`lhs/rhs_contracting_dimensions`, `lhs/rhs_batch_dimensions`). -/
structure DotDimensionNumbers where
  lhs_contracting_dimensions : List Nat
  rhs_contracting_dimensions : List Nat
  lhs_batch_dimensions : List Nat
  rhs_batch_dimensions : List Nat
  deriving DecidableEq, Repr

/-- The `cudnn_fmha_backend_config` record; the per-matmul
dot-dimension-number blocks appear as named entries merged into the
record, modelled as an association list in insertion order. -/
structure CudnnFmhaBackendConfig where
  algorithm : AlgorithmBlock
  fmha_scale : ℚ
  dropout_rate : ℚ
  intermediate_tensor_shape : IntermediateTensorShape
  seed : Nat
  is_flash_attention : Bool
  mask_type : String
  sliding_window_length : Int
  dot_dimension_numbers : List (String × DotDimensionNumbers)
  deriving DecidableEq, Repr

/-- The top-level backend config (the source finally `json.dumps` this;
serialization is outside the model, the structured record is what the
claims are about). -/
structure BackendConfig where
  operation_queue_id : String
  wait_on_operation_queues : List String
  cudnn_fmha_backend_config : CudnnFmhaBackendConfig
  deriving DecidableEq, Repr

/-- `element_type_to_backend_config_type_mapping` (a dict lookup;
a missing key raises `KeyError`). -/
def element_type_to_backend_config_type_mapping (dtype : Dtype) :
    Except String String :=
  match dtype with
  | .bf16 => .ok "BF16"
  | .f16 => .ok "F16"
  | _ => .error "KeyError"

/-- `create_dot_product_attention_backend_config(batch, num_heads,
seq_q, seq_kv, dtype, fmha_scale, seed, dropout_rate, mask_type, layout,
sliding_window_length, is_bwd)`: `None` window length becomes `0`; the
fixed algorithm block, the intermediate-tensor descriptor
`(batch, num_heads, seq_q, seq_kv)` with minor-to-major `[3,2,1,0]`, the
always-true flash flag, and the six per-layout dot-dimension tables of
which the first two (forward) or last four (backward) are merged in,
keyed by the `keys` list, according to `is_bwd`. -/
def create_dot_product_attention_backend_config
    (batch num_heads seq_q seq_kv : Nat) (dtype : Dtype)
    (fmha_scale : ℚ) (seed : Nat) (dropout_rate : ℚ) (mask_type : MaskType)
    (layout : Nat) (sliding_window_length : Option Int) (is_bwd : Bool) :
    Except String BackendConfig := do
  let swl : Int := serialize_sliding_window_length sliding_window_length
  let element_type ← element_type_to_backend_config_type_mapping dtype
  let base : CudnnFmhaBackendConfig :=
    { algorithm :=
        { algo_id := "0"
          math_type := "TENSOR_OP_MATH"
          tuning_knobs := [("17", "1"), ("24", "0")]
          is_cudnn_frontend := true
          workspace_size := "0" }
      fmha_scale := fmha_scale
      dropout_rate := dropout_rate
      intermediate_tensor_shape :=
        { element_type := element_type
          dimensions := [batch, num_heads, seq_q, seq_kv]
          tuple_shapes := []
          layout :=
            { dim_level_types := []
              dim_unique := []
              dim_ordered := []
              minor_to_major := [3, 2, 1, 0]
              tiles := []
              element_size_in_bits := 0
              memory_space := 0
              index_primitive_type := "PRIMITIVE_TYPE_INVALID"
              pointer_primitive_type := "PRIMITIVE_TYPE_INVALID"
              dynamic_shape_metadata_prefix_bytes := 0 }
          is_dynamic_dimension := [false, false, false, false] }
      seed := seed
      is_flash_attention := true
      mask_type := convert_mask_type_to_string mask_type
      sliding_window_length := swl
      dot_dimension_numbers := [] }
  let dims : List ((Nat × Nat) × (List Nat × List Nat)) :=
    if layout = AttentionLayout.BNTH.value then
      [ ((3, 3), ([0, 1], [0, 1])),  -- BMM1: BNTH,BNSH->BNTS
        ((3, 2), ([0, 1], [0, 1])),  -- BMM2: BNTS,BNSH->BNTH
        ((2, 2), ([0, 1], [0, 1])),  -- BMM1_grad_1: BNTS,BNTH->BNSH
        ((3, 2), ([0, 1], [0, 1])),  -- BMM1_grad_2: BNTS,BNSH->BNTH
        ((2, 2), ([0, 1], [0, 1])),  -- BMM2_grad_1: BNTS,BNTH->BNSH
        ((3, 3), ([0, 1], [0, 1])) ] -- BMM2_grad_2: BNTH,BNSH->BNTS
    else
      [ ((3, 3), ([0, 2], [0, 2])),  -- BMM1: BTNH,BSNH->BNTS
        ((3, 1), ([0, 1], [0, 2])),  -- BMM2: BNTS,BSNH->BTNH
        ((2, 1), ([0, 1], [0, 2])),  -- BMM1_grad_1: BNTS,BTNH->BSNH
        ((3, 1), ([0, 1], [0, 2])),  -- BMM1_grad_2: BNTS,BSNH->BTNH
        ((2, 1), ([0, 1], [0, 2])),  -- BMM2_grad_1: BNTS,BTNH->BSNH
        ((3, 3), ([0, 2], [0, 2])) ] -- BMM2_grad_2: BTNH,BSNH->BNTS
  let keys : List String :=
    [ "bmm1_dot_dimension_numbers",
      "bmm2_dot_dimension_numbers",
      "bmm1_grad_gemm1_dot_dimension_numbers",
      "bmm1_grad_gemm2_dot_dimension_numbers",
      "bmm2_grad_gemm1_dot_dimension_numbers",
      "bmm2_grad_gemm2_dot_dimension_numbers" ]
  let entries := (keys.zip dims).enum.map (fun e =>
    (e.1, e.2.1,
     { lhs_contracting_dimensions := [e.2.2.1.1]
       rhs_contracting_dimensions := [e.2.2.1.2]
       lhs_batch_dimensions := e.2.2.2.1
       rhs_batch_dimensions := e.2.2.2.2 : DotDimensionNumbers }))
  let fwd_dot_number := (entries.filter (fun e => e.1 < 2)).map (fun e => e.2)
  let bwd_dot_number := (entries.filter (fun e => ¬ e.1 < 2)).map (fun e => e.2)
  let cudnn_fmha_backend_config :=
    if is_bwd then
      { base with dot_dimension_numbers := bwd_dot_number }
    else
      { base with dot_dimension_numbers := fwd_dot_number }
  pure
    { operation_queue_id := "0"
      wait_on_operation_queues := []
      cudnn_fmha_backend_config := cudnn_fmha_backend_config }

/-! ## Custom-call emitter (forward cuda lowering) -/

/-- The operand slots of the fused-attention custom call (the tensors
themselves are opaque at lowering time). -/
inductive OperandTag
  | query
  | key
  | value
  | bias
  | q_seqlen
  | kv_seqlen
  deriving DecidableEq, Repr

/-- The result slots the lowering declares. -/
inductive ResultTag
  | output
  | softmax_stat
  | workspace
  deriving DecidableEq, Repr

/-- `_custom_name_maps`: the fixed 8-entry table from
`(is_bwd, has_dropout, has_bias)` to the external kernel name. -/
def _custom_name_maps : Bool × Bool × Bool → String
  | (false, false, false) => "__cudnn$fmhaSoftmax"
  | (false, false, true) => "__cudnn$fmhaScaleBiasSoftmax"
  | (false, true, false) => "__cudnn$fmhaSoftmaxDropout"
  | (false, true, true) => "__cudnn$fmhaScaleBiasSoftmaxDropout"
  | (true, false, false) => "__cudnn$fmhaSoftmaxBackward"
  | (true, false, true) => "__cudnn$fmhaScaleBiasSoftmaxBackward"
  | (true, true, false) => "__cudnn$fmhaSoftmaxDropoutBackward"
  | (true, true, true) => "__cudnn$fmhaScaleBiasSoftmaxDropoutBackward"

/-- `get_custom_call_name(has_bias, has_dropout, is_bwd)`. -/
def get_custom_call_name (has_bias has_dropout is_bwd : Bool) : String :=
  _custom_name_maps (is_bwd, has_dropout, has_bias)

/-- `perm`-indexed gather of a shape:
`(transpose x perm).shape[i] = x.shape[perm[i]]`. -/
def applyPerm (perm shape : List Nat) : List Nat :=
  perm.map (fun i => shape.getD i 0)

/-- The custom call descriptor assembled by the forward lowering. -/
structure FwdCustomCall where
  custom_call_name : String
  operands : List OperandTag
  result_kinds : List ResultTag
  result_shapes : List (List Nat)
  output_transpose_perm : List Nat
  returned_output_shape : List Nat
  deriving DecidableEq, Repr

/-- `_dot_product_attention_fwd_cuda_lowering` (shape-level): extracts
B/N/T/H and S per layout, assembles the operand list
`[query, key, value] (+ bias)? (+ q_seqlen, kv_seqlen)?`, selects the
kernel name via `get_custom_call_name(has_bias, dropout_rate > 0,
False)`, declares results `[output(B,N,T,H), softmax_stat(B,N,T)
(training only), workspace(0)]`, and finally transposes the native
`(B,N,T,H)` output back to the user layout with
`output_transpose_perm`. -/
def _dot_product_attention_fwd_cuda_lowering
    (query_shape key_shape : List Nat) (dropout_rate : ℚ)
    (variadic_args : Bool × Bool) (mask_type : MaskType) (layout : Nat)
    (is_training : Bool) : Except String FwdCustomCall := do
  let (B, N, T, H, _S, output_transpose_perm) ←
    if layout = AttentionLayout.BNTH.value then
      match query_shape, key_shape with
      | [B, N, T, H], [_, _, S, _] =>
        Except.ok (B, N, T, H, S, ([0, 1, 2, 3] : List Nat))
      | _, _ => Except.error "values to unpack"
    else
      match query_shape, key_shape with
      | [B, T, N, H], [_, S, _, _] =>
        Except.ok (B, N, T, H, S, ([0, 2, 1, 3] : List Nat))
      | _, _ => Except.error "values to unpack"
  let output_shape := [B, N, T, H]
  let softmax_stat_shape := [B, N, T]
  let workspace_shape : List Nat := [0]
  let has_dropout := dropout_rate > 0
  let has_bias := variadic_args.1
  let operands :=
    [OperandTag.query, OperandTag.key, OperandTag.value]
      ++ (if has_bias then [OperandTag.bias] else [])
      ++ (if has_padding mask_type then
            [OperandTag.q_seqlen, OperandTag.kv_seqlen] else [])
  let custom_call_name := get_custom_call_name has_bias has_dropout false
  let (result_kinds, result_shapes) :=
    if is_training then
      ([ResultTag.output, ResultTag.softmax_stat, ResultTag.workspace],
       [output_shape, softmax_stat_shape, workspace_shape])
    else
      ([ResultTag.output, ResultTag.workspace],
       [output_shape, workspace_shape])
  pure
    { custom_call_name := custom_call_name
      operands := operands
      result_kinds := result_kinds
      result_shapes := result_shapes
      output_transpose_perm := output_transpose_perm
      returned_output_shape := applyPerm output_transpose_perm output_shape }

/-! ## Batching rule -/

/-- `_check_valid_batch_dims(bdims)`: every batch dim must be `0` or
`None`. -/
def _check_valid_batch_dims (bdims : List (Option Nat)) :
    Except String Unit :=
  match bdims.find? (fun d => ¬(d = some 0 ∨ d = none)) with
  | some _ => .error "Currently only support batch_dim in [0, None]"
  | none => .ok ()

/-- The keyword arguments accepted (all required, no defaults) by
`_dot_product_attention_fwd_impl` / `_dot_product_attention_fwd_abstract`,
the impl and abstract-eval of `_dot_product_attention_fwd_p_wrapper`.
`Option` models presence of each keyword at a `bind` call site; binding
the primitive with a keyword missing is a Python `TypeError`. -/
structure FwdWrapperKwargs where
  scale : Option ℚ
  seed : Option Nat
  dropout_rate : Option ℚ
  variadic_args : Option (Bool × Bool)
  mask_type : Option MaskType
  layout : Option Nat
  sliding_window_length : Option (Option Int)
  is_training : Option Bool
  deriving DecidableEq, Repr

/-- `_dot_product_attention_fwd_p_wrapper.bind(...)` parameter check:
succeeds only when every required keyword parameter of the wrapped
impl/abstract-eval is supplied. -/
def _dot_product_attention_fwd_p_wrapper_bind (kwargs : FwdWrapperKwargs) :
    Except String Unit :=
  if kwargs.scale.isNone then
    .error "missing a required argument: scale"
  else if kwargs.seed.isNone then
    .error "missing a required argument: seed"
  else if kwargs.dropout_rate.isNone then
    .error "missing a required argument: dropout_rate"
  else if kwargs.variadic_args.isNone then
    .error "missing a required argument: variadic_args"
  else if kwargs.mask_type.isNone then
    .error "missing a required argument: mask_type"
  else if kwargs.layout.isNone then
    .error "missing a required argument: layout"
  else if kwargs.sliding_window_length.isNone then
    .error "missing a required argument: sliding_window_length"
  else if kwargs.is_training.isNone then
    .error "missing a required argument: is_training"
  else .ok ()

/-- `_dot_product_attention_fwd_batcher` (shape-level): validates batch
dims, flattens the leading batch dimensions of query/key/value (bias,
seqlens analogously) into one synthetic batch dimension, then re-binds
`_dot_product_attention_fwd_p_wrapper` with keywords `scale, seed,
dropout_rate, variadic_args, mask_type, layout, is_training` — the
source omits `sliding_window_length` at this bind, modelled by the
`none` field — and reshapes outputs back to the original leading
dimensions. -/
def _dot_product_attention_fwd_batcher
    (query_shape key_shape value_shape : List Nat)
    (bias_shape : Option (List Nat)) (batch_dims : List (Option Nat))
    (scale : ℚ) (seed : Nat) (dropout_rate : ℚ)
    (variadic_args : Bool × Bool) (mask_type : MaskType) (layout : Nat)
    (sliding_window_length : Option Int) (is_training : Bool) :
    Except String (List (List Nat)) := do
  _check_valid_batch_dims batch_dims
  let n := query_shape.length
  let Bs := query_shape.take (n - 3)
  let (N, T) :=
    if layout = AttentionLayout.BNTH.value then
      (query_shape.getD (n - 3) 0, query_shape.getD (n - 2) 0)
    else
      (query_shape.getD (n - 2) 0, query_shape.getD (n - 3) 0)
  let B := Bs.prod
  let original_shape := query_shape
  let _query := B :: query_shape.drop (n - 3)
  let _key := B :: key_shape.drop (key_shape.length - 3)
  let _value := B :: key_shape.drop (key_shape.length - 3)
  let _bias := bias_shape
  let _swl := sliding_window_length
  _dot_product_attention_fwd_p_wrapper_bind
    { scale := some scale
      seed := some seed
      dropout_rate := some dropout_rate
      variadic_args := some variadic_args
      mask_type := some mask_type
      layout := some layout
      sliding_window_length := none
      is_training := some is_training }
  if is_training then
    pure [original_shape, Bs ++ [N, T]]
  else
    pure [original_shape]

/-! ## Spec-side helper vocabulary used by the theorems -/

/-- Index of the sequence axis of a rank-4 tensor under each layout. -/
def seqIdx : AttentionLayout → Nat
  | .BTNH => 1
  | .BNTH => 2

/-- Index of the head-count axis of a rank-4 tensor under each layout. -/
def headCountIdx : AttentionLayout → Nat
  | .BTNH => 2
  | .BNTH => 1

/-- The "supported attention pattern" condition of
`check_is_flash_attention`: head dim at most 128 and divisible by 8,
and even sequence lengths when training with a bias. -/
def flash_pattern_supported (T S H : Nat) (has_bias is_training : Bool) :
    Prop :=
  H ≤ 128 ∧ H % 8 = 0 ∧
    (is_training = true → has_bias = true → (T % 2 = 0 ∧ S % 2 = 0))

instance (T S H : Nat) (b t : Bool) :
    Decidable (flash_pattern_supported T S H b t) := by
  unfold flash_pattern_supported; infer_instance

/-- The two forward dot-dimension-number blocks, written out per layout
(`layout` is the enum `.value` integer). -/
def forward_dot_blocks (layout : Nat) : List (String × DotDimensionNumbers) :=
  if layout = AttentionLayout.BNTH.value then
    [ ("bmm1_dot_dimension_numbers", ⟨[3], [3], [0, 1], [0, 1]⟩),
      ("bmm2_dot_dimension_numbers", ⟨[3], [2], [0, 1], [0, 1]⟩) ]
  else
    [ ("bmm1_dot_dimension_numbers", ⟨[3], [3], [0, 2], [0, 2]⟩),
      ("bmm2_dot_dimension_numbers", ⟨[3], [1], [0, 1], [0, 2]⟩) ]

/-- The four backward dot-dimension-number blocks, written out per
layout. -/
def backward_dot_blocks (layout : Nat) : List (String × DotDimensionNumbers) :=
  if layout = AttentionLayout.BNTH.value then
    [ ("bmm1_grad_gemm1_dot_dimension_numbers", ⟨[2], [2], [0, 1], [0, 1]⟩),
      ("bmm1_grad_gemm2_dot_dimension_numbers", ⟨[3], [2], [0, 1], [0, 1]⟩),
      ("bmm2_grad_gemm1_dot_dimension_numbers", ⟨[2], [2], [0, 1], [0, 1]⟩),
      ("bmm2_grad_gemm2_dot_dimension_numbers", ⟨[3], [3], [0, 1], [0, 1]⟩) ]
  else
    [ ("bmm1_grad_gemm1_dot_dimension_numbers", ⟨[2], [1], [0, 1], [0, 2]⟩),
      ("bmm1_grad_gemm2_dot_dimension_numbers", ⟨[3], [1], [0, 1], [0, 2]⟩),
      ("bmm2_grad_gemm1_dot_dimension_numbers", ⟨[2], [1], [0, 1], [0, 2]⟩),
      ("bmm2_grad_gemm2_dot_dimension_numbers", ⟨[3], [3], [0, 2], [0, 2]⟩) ]

end FusedAttn

deriving instance DecidableEq for Except

namespace FusedAttn

/-! ## Claim theorems -/

/-- C1, counterexample: the boolean-mask sentinel for float16 is not
`-2^14` (and for bfloat16 not `-2^40`): the source computes `-2 << 14`
and `-2 << 40`, i.e. `-2^15` and `-2^41`. -/
theorem C1_counterexample :
    get_large_negative_number Dtype.f16 ≠ .ok (-(2 ^ 14)) ∧
    get_large_negative_number Dtype.bf16 ≠ .ok (-(2 ^ 40)) ∧
    get_large_negative_number Dtype.f16 = .ok (-(2 ^ 15)) ∧
    get_large_negative_number Dtype.bf16 = .ok (-(2 ^ 41)) := by
  refine ⟨by decide, by decide, by decide, by decide⟩

/-- C1, amended: for every boolean mask element supplied to
`dot_product_attention`, a masked (false) position is replaced by the
additive bias value `-2^15` when the query dtype is float16 and `-2^41`
when it is bfloat16 (the values of `-2 << 14` and `-2 << 40`), before
the mask is fused into the bias; an unmasked (true) position receives
`0`. -/
theorem C1_mask_fold (m : Bool) :
    mask_to_bias_value Dtype.f16 m = .ok (if m then 0 else -(2 ^ 15)) ∧
    mask_to_bias_value Dtype.bf16 m = .ok (if m then 0 else -(2 ^ 41)) := by
  cases m <;> exact ⟨by decide, by decide⟩

/-- C3, counterexample: a rank-4 bias whose batch extent (2) equals the
query's batch extent and whose head extent (3) equals the query's head
extent, yet `should_export_dbias` is `false` (the source tests
`b_B == 1`, not `b_B == q_B`). -/
theorem C3_counterexample :
    should_export_dbias [2, 3, 4, 5] [2, 4, 3, 8]
      AttentionLayout.BTNH.value = .ok false ∧
    [2, 3, 4, 5].getD 0 0 = [2, 4, 3, 8].getD 0 0 ∧
    [2, 3, 4, 5].getD 1 0 = [2, 4, 3, 8].getD 2 0 := by
  refine ⟨by decide, by decide, by decide⟩

/-- C3, amended: for every rank-4 bias and rank-4 query,
`should_export_dbias` (hence the `has_dbias` flag of `VariadicArgs` for
a bias accepted by the public operator) is true iff the bias's batch
extent is exactly `1` and its head extent equals the query's head
extent (read off per layout). -/
theorem C3_has_dbias (bB bN bT bS q0 q1 q2 q3 layout : Nat) :
    should_export_dbias [bB, bN, bT, bS] [q0, q1, q2, q3] layout =
        .ok true ↔
      (bB = 1 ∧
       bN = (if layout = AttentionLayout.BNTH.value then q1 else q2)) := by
  by_cases h : layout = AttentionLayout.BNTH.value <;>
    simp [should_export_dbias, h]

/-- C4, counterexample: `sliding_window_length = 0` does not succeed:
the public operator's validation rejects it (`<= 0` raises). -/
theorem C4_counterexample :
    dpa_check_sliding_window_length (some 0) =
      .error "Require sliding_window_length > 0" := by
  decide

/-- C4, amended: `sliding_window_length = None` passes validation (and
is serialized as `0`, windowing disabled, in the backend
configuration); every `sliding_window_length ≤ 0` — including `0` —
fails the configuration validation of `dot_product_attention` before
any dispatch, and positive values pass. -/
theorem C4_sliding_window (swl : Option Int) :
    (dpa_check_sliding_window_length swl = .ok () ↔
      (swl = none ∨ ∃ v, swl = some v ∧ 0 < v)) ∧
    serialize_sliding_window_length none = 0 ∧
    (∀ v : Int, v ≤ -1 →
      dpa_check_sliding_window_length (some v) =
        .error "Require sliding_window_length > 0") := by
  refine ⟨?_, rfl, ?_⟩
  · cases swl with
    | none => simp [dpa_check_sliding_window_length]
    | some v =>
      simp only [dpa_check_sliding_window_length]
      constructor
      · intro h
        split at h
        · exact absurd h (by simp)
        · exact Or.inr ⟨v, rfl, by omega⟩
      · rintro (h | ⟨w, hw, hpos⟩)
        · exact absurd h (by simp)
        · cases hw
          simp [show ¬(v ≤ 0) by omega]
  · intro v hv
    simp [dpa_check_sliding_window_length, show v ≤ 0 by omega]

/-- C4, witness: the amended theorem applied at
`sliding_window_length = -1`. -/
theorem C4_witness :
    dpa_check_sliding_window_length (some (-1)) =
      .error "Require sliding_window_length > 0" :=
  (C4_sliding_window (some (-1))).2.2 (-1) (by norm_num)

/-- C7, code bug: the forward batching rule flattens the leading batch
dimensions and re-binds the wrapper primitive, but the source's `bind`
call omits the required `sliding_window_length` keyword parameter of
the wrapped impl/abstract-eval, so every batched dispatch fails with a
missing-argument error (and any window length would be dropped) instead
of dispatching with the same attention parameters.  Evaluated at a
concrete batched input (an extra leading axis of size 3 on BTNH
query/key/value, batch dims `[0, 0, 0, None, None, None]`,
`sliding_window_length = 2`). -/
theorem C7_batcher_missing_param :
    _dot_product_attention_fwd_batcher
      [3, 2, 4, 2, 8] [3, 2, 4, 2, 8] [3, 2, 4, 2, 8] none
      [some 0, some 0, some 0, none, none, none]
      1 42 0 (false, false) MaskType.NO_MASK AttentionLayout.BTNH.value
      (some 2) false =
      .error "missing a required argument: sliding_window_length" := by
  rfl

/-- C10: `_normalize_layout` is case-insensitive and aliases "S" to
"T": it succeeds iff the upper-cased string is one of BTNH, BNTH, BSNH,
BNSH; BSNH maps to the same layout value as BTNH and BNSH to the same
value as BNTH; every other string raises `ValueError`. -/
theorem C10_normalize_layout (s : String) :
    ((_normalize_layout s).isOk ↔
      pyUpper s ∈ ["BTNH", "BNTH", "BSNH", "BNSH"]) ∧
    (pyUpper s = "BTNH" → _normalize_layout s = .ok .BTNH) ∧
    (pyUpper s = "BNTH" → _normalize_layout s = .ok .BNTH) ∧
    (pyUpper s = "BSNH" → _normalize_layout s = .ok .BTNH) ∧
    (pyUpper s = "BNSH" → _normalize_layout s = .ok .BNTH) ∧
    (pyUpper s ∉ ["BTNH", "BNTH", "BSNH", "BNSH"] →
      _normalize_layout s = .error "Unsupported qkv_layout") := by
  have hBTNH : pyUpper s = "BTNH" → _normalize_layout s = .ok .BTNH := by
    intro h; unfold _normalize_layout; rw [h]; decide
  have hBNTH : pyUpper s = "BNTH" → _normalize_layout s = .ok .BNTH := by
    intro h; unfold _normalize_layout; rw [h]; decide
  have hBSNH : pyUpper s = "BSNH" → _normalize_layout s = .ok .BTNH := by
    intro h; unfold _normalize_layout; rw [h]; decide
  have hBNSH : pyUpper s = "BNSH" → _normalize_layout s = .ok .BNTH := by
    intro h; unfold _normalize_layout; rw [h]; decide
  have hout : pyUpper s ∉ ["BTNH", "BNTH", "BSNH", "BNSH"] →
      _normalize_layout s = .error "Unsupported qkv_layout" := by
    intro h
    unfold _normalize_layout
    have : pyUpper s ∉ ["BSNH", "BNSH", "BTNH", "BNTH"] := by
      simp only [List.mem_cons, List.not_mem_nil, or_false] at h ⊢
      tauto
    simp [this]
  refine ⟨?_, hBTNH, hBNTH, hBSNH, hBNSH, hout⟩
  constructor
  · intro h
    by_contra hmem
    rw [hout hmem] at h
    exact absurd h (by decide)
  · intro hmem
    simp only [List.mem_cons, List.not_mem_nil, or_false] at hmem
    rcases hmem with h | h | h | h
    · rw [hBTNH h]; decide
    · rw [hBNTH h]; decide
    · rw [hBSNH h]; decide
    · rw [hBNSH h]; decide

/-- C10, witness: the theorem applied at the concrete string "bsnh". -/
theorem C10_witness :
    pyUpper "bsnh" = "BSNH" ∧ _normalize_layout "bsnh" = .ok .BTNH :=
  ⟨by decide, (C10_normalize_layout "bsnh").2.2.2.1 (by decide)⟩

end FusedAttn

namespace FusedAttn

/-- C6: `check_is_flash_attention` succeeds iff the attention pattern is
supported (head_dim at most 128 and divisible by 8; when training with a
bias, both sequence lengths even) and the cuDNN version is at least
8904; an unsupported pattern raises the unsupported-configuration
(`NotImplementedError`) error, and a supported pattern with
`cudnn_version < 8904` raises the version-too-low (`RuntimeError`)
error. -/
theorem C6_flash_check
    (q0 q1 q2 q3 k0 k1 k2 k3 layout cudnn_version T S : Nat)
    (has_bias is_training : Bool) (query_shape key_shape : List Nat)
    (hq : query_shape = [q0, q1, q2, q3]) (hk : key_shape = [k0, k1, k2, k3])
    (hT : T = if layout = AttentionLayout.BNTH.value then q2 else q1)
    (hS : S = if layout = AttentionLayout.BNTH.value then k2 else k1) :
    (check_is_flash_attention query_shape key_shape layout cudnn_version
        has_bias is_training = .ok () ↔
      (flash_pattern_supported T S q3 has_bias is_training ∧
        8904 ≤ cudnn_version)) ∧
    (¬ flash_pattern_supported T S q3 has_bias is_training →
      ∃ m, check_is_flash_attention query_shape key_shape layout
        cudnn_version has_bias is_training = .error (.notImplemented m)) ∧
    (flash_pattern_supported T S q3 has_bias is_training →
      cudnn_version < 8904 →
      ∃ m, check_is_flash_attention query_shape key_shape layout
        cudnn_version has_bias is_training = .error (.runtimeError m)) := by
  have core : ∀ t s : ℕ,
      ((if ¬((q3 ≤ 128 ∧ q3 % 8 = 0) ∧
            (¬is_training = true ∨ ¬has_bias = true ∨
              (t % 2 = 0 ∧ s % 2 = 0))) then
          (Except.error (FlashCheckError.notImplemented
            "Unsupported sequence length and head dim.") :
            Except FlashCheckError Unit)
        else if cudnn_version < 8904 then
          Except.error (.runtimeError
            "JAX requires cuDNN >= 8.9.4 to use flash cross attention.")
        else Except.ok ()) = .ok () ↔
        (flash_pattern_supported t s q3 has_bias is_training ∧
          8904 ≤ cudnn_version)) ∧
      (¬ flash_pattern_supported t s q3 has_bias is_training →
        ∃ m, (if ¬((q3 ≤ 128 ∧ q3 % 8 = 0) ∧
            (¬is_training = true ∨ ¬has_bias = true ∨
              (t % 2 = 0 ∧ s % 2 = 0))) then
          (Except.error (FlashCheckError.notImplemented
            "Unsupported sequence length and head dim.") :
            Except FlashCheckError Unit)
        else if cudnn_version < 8904 then
          Except.error (.runtimeError
            "JAX requires cuDNN >= 8.9.4 to use flash cross attention.")
        else Except.ok ()) = .error (.notImplemented m)) ∧
      (flash_pattern_supported t s q3 has_bias is_training →
        cudnn_version < 8904 →
        ∃ m, (if ¬((q3 ≤ 128 ∧ q3 % 8 = 0) ∧
            (¬is_training = true ∨ ¬has_bias = true ∨
              (t % 2 = 0 ∧ s % 2 = 0))) then
          (Except.error (FlashCheckError.notImplemented
            "Unsupported sequence length and head dim.") :
            Except FlashCheckError Unit)
        else if cudnn_version < 8904 then
          Except.error (.runtimeError
            "JAX requires cuDNN >= 8.9.4 to use flash cross attention.")
        else Except.ok ()) = .error (.runtimeError m)) := by
    intro t s
    have hiff : ((q3 ≤ 128 ∧ q3 % 8 = 0) ∧
        (¬is_training = true ∨ ¬has_bias = true ∨
          (t % 2 = 0 ∧ s % 2 = 0))) ↔
        flash_pattern_supported t s q3 has_bias is_training := by
      unfold flash_pattern_supported
      constructor
      · rintro ⟨⟨u1, u2⟩, u3⟩
        exact ⟨u1, u2, fun ht hb => by tauto⟩
      · rintro ⟨u1, u2, u3⟩
        exact ⟨⟨u1, u2⟩, by tauto⟩
    by_cases h1 : ((q3 ≤ 128 ∧ q3 % 8 = 0) ∧
        (¬is_training = true ∨ ¬has_bias = true ∨
          (t % 2 = 0 ∧ s % 2 = 0)))
    · rw [if_neg (not_not_intro h1)]
      by_cases h2 : cudnn_version < 8904
      · rw [if_pos h2]
        exact ⟨iff_of_false (by simp) (fun h => by omega),
          fun hns => absurd (hiff.mp h1) hns,
          fun _ _ => ⟨_, rfl⟩⟩
      · rw [if_neg h2]
        exact ⟨iff_of_true rfl ⟨hiff.mp h1, by omega⟩,
          fun hns => absurd (hiff.mp h1) hns,
          fun _ hlt => absurd hlt h2⟩
    · rw [if_pos h1]
      exact ⟨iff_of_false (by simp) (fun h => h1 (hiff.mpr h.1)),
        fun _ => ⟨_, rfl⟩, fun hs _ => absurd (hiff.mpr hs) h1⟩
  subst hq hk hT hS
  by_cases hl : layout = AttentionLayout.BNTH.value
  · simpa only [check_is_flash_attention, hl, if_true, if_false, bind,
      Except.bind, ite_true, ite_false, eq_self_iff_true] using core q2 k2
  · simp only [check_is_flash_attention, if_neg hl, bind, Except.bind]
    exact core q1 k1

/-- C6, witness: the theorem applied at a concrete supported
configuration (BTNH, T = S = 2, H = 8, bias, training, version 8904). -/
theorem C6_witness :
    check_is_flash_attention [1, 2, 2, 8] [1, 2, 2, 8] 0 8904 true true =
      .ok () :=
  (C6_flash_check 1 2 2 8 1 2 2 8 0 8904 2 2 true true _ _ rfl rfl
    (by decide) (by decide)).1.mpr ⟨by decide, by norm_num⟩

/-- C8: the forward custom-call emitter selects the kernel name from the
fixed 8-entry `_custom_name_maps` table at key
`(direction = forward, dropout-present, bias-present)`, assembles the
operand list as query, key, value, then bias only when `has_bias`, then
the two sequence-length operands only when the mask type requires
padding, declares result types output / softmax-stat (training only) /
workspace with the native `(B, N, T, H)` output shape, and transposes
the native output back to the user's layout (its final shape equals the
query shape). -/
theorem C8_fwd_lowering
    (B T N H Bk Nk S Hk : Nat) (dropout_rate : ℚ) (has_bias has_dbias : Bool)
    (mask_type : MaskType) (layout : AttentionLayout) (is_training : Bool)
    (query_shape key_shape : List Nat)
    (hq : query_shape =
      if layout = AttentionLayout.BNTH then [B, N, T, H] else [B, T, N, H])
    (hk : key_shape =
      if layout = AttentionLayout.BNTH then [Bk, Nk, S, Hk]
      else [Bk, S, Nk, Hk]) :
    ∃ cc, _dot_product_attention_fwd_cuda_lowering query_shape key_shape
        dropout_rate (has_bias, has_dbias) mask_type layout.value
        is_training = .ok cc ∧
      cc.custom_call_name =
        _custom_name_maps (false, decide (dropout_rate > 0), has_bias) ∧
      cc.operands = [OperandTag.query, OperandTag.key, OperandTag.value]
        ++ (if has_bias then [OperandTag.bias] else [])
        ++ (if has_padding mask_type then
              [OperandTag.q_seqlen, OperandTag.kv_seqlen] else []) ∧
      cc.result_kinds = (if is_training then
          [ResultTag.output, ResultTag.softmax_stat, ResultTag.workspace]
        else [ResultTag.output, ResultTag.workspace]) ∧
      cc.result_shapes.getD 0 [] = [B, N, T, H] ∧
      cc.returned_output_shape = query_shape := by
  cases layout <;> subst hq hk <;> cases is_training <;>
    exact ⟨_, rfl, rfl, rfl, rfl, rfl, rfl⟩

/-- C8, witness: the theorem applied at a concrete BTNH input with bias,
no dropout and a padding mask, in training mode. -/
theorem C8_witness :
    ∃ cc, _dot_product_attention_fwd_cuda_lowering [2, 4, 3, 8] [2, 5, 3, 8]
        0 (true, true) MaskType.PADDING AttentionLayout.BTNH.value
        true = .ok cc ∧
      cc.custom_call_name =
        _custom_name_maps (false, decide ((0 : ℚ) > 0), true) ∧
      cc.operands = [OperandTag.query, OperandTag.key, OperandTag.value]
        ++ (if true then [OperandTag.bias] else [])
        ++ (if has_padding MaskType.PADDING then
              [OperandTag.q_seqlen, OperandTag.kv_seqlen] else []) ∧
      cc.result_kinds = (if true then
          [ResultTag.output, ResultTag.softmax_stat, ResultTag.workspace]
        else [ResultTag.output, ResultTag.workspace]) ∧
      cc.result_shapes.getD 0 [] = [2, 3, 4, 8] ∧
      cc.returned_output_shape = [2, 4, 3, 8] := by
  have h := C8_fwd_lowering 2 4 3 8 2 3 5 8 0 true true MaskType.PADDING
    AttentionLayout.BTNH true [2, 4, 3, 8] [2, 5, 3, 8] (by decide) (by decide)
  simpa using h

end FusedAttn

namespace FusedAttn

/-- C9: for every valid argument combination (a 16-bit float dtype), the
backend configuration builder produces the structured record with the
fixed algorithm sub-block, the scale, the dropout rate, the
intermediate-tensor descriptor with dimensions
`(batch, num_heads, seq_q, seq_kv)` and minor-to-major `[3, 2, 1, 0]`,
the seed, the always-true flash-attention flag, the mask-type string,
the sliding-window length (`None` serialized as 0), and the
dot-dimension-number blocks selected by `is_bwd`: exactly the 2 forward
blocks when false and the 4 backward blocks when true, with
contracting/batch axes given by one of two fixed per-layout tables. -/
theorem C9_backend_config
    (batch num_heads seq_q seq_kv : Nat) (dtype : Dtype) (scale dropout : ℚ)
    (seed : Nat) (mask_type : MaskType) (layout : Nat) (swl : Option Int)
    (is_bwd : Bool) (hdt : dtype = Dtype.bf16 ∨ dtype = Dtype.f16) :
    ∃ cfg, create_dot_product_attention_backend_config batch num_heads seq_q
        seq_kv dtype scale seed dropout mask_type layout swl is_bwd =
        .ok cfg ∧
      cfg.operation_queue_id = "0" ∧
      cfg.wait_on_operation_queues = [] ∧
      cfg.cudnn_fmha_backend_config.algorithm =
        { algo_id := "0", math_type := "TENSOR_OP_MATH",
          tuning_knobs := [("17", "1"), ("24", "0")],
          is_cudnn_frontend := true, workspace_size := "0" } ∧
      cfg.cudnn_fmha_backend_config.fmha_scale = scale ∧
      cfg.cudnn_fmha_backend_config.dropout_rate = dropout ∧
      cfg.cudnn_fmha_backend_config.intermediate_tensor_shape.dimensions =
        [batch, num_heads, seq_q, seq_kv] ∧
      cfg.cudnn_fmha_backend_config.intermediate_tensor_shape.layout.minor_to_major
        = [3, 2, 1, 0] ∧
      cfg.cudnn_fmha_backend_config.seed = seed ∧
      cfg.cudnn_fmha_backend_config.is_flash_attention = true ∧
      cfg.cudnn_fmha_backend_config.mask_type =
        convert_mask_type_to_string mask_type ∧
      cfg.cudnn_fmha_backend_config.sliding_window_length =
        serialize_sliding_window_length swl ∧
      cfg.cudnn_fmha_backend_config.dot_dimension_numbers =
        (if is_bwd then backward_dot_blocks layout
         else forward_dot_blocks layout) ∧
      (backward_dot_blocks layout).length = 4 ∧
      (forward_dot_blocks layout).length = 2 := by
  rcases hdt with h | h <;> subst h <;>
    by_cases hl : layout = AttentionLayout.BNTH.value
  all_goals first
  | (subst hl
     cases is_bwd <;>
       exact ⟨_, rfl, rfl, rfl, rfl, rfl, rfl, rfl, rfl, rfl, rfl, rfl,
         rfl, rfl, rfl, rfl⟩)
  | (cases is_bwd <;>
      simp only [create_dot_product_attention_backend_config,
        forward_dot_blocks, backward_dot_blocks,
        element_type_to_backend_config_type_mapping, bind, Except.bind,
        if_neg hl] <;>
      exact ⟨_, rfl, rfl, rfl, rfl, rfl, rfl, rfl, rfl, rfl, rfl, rfl,
        rfl, rfl, rfl, rfl⟩)

end FusedAttn

namespace FusedAttn

/-- C9, witness: the theorem applied at a concrete forward BTNH
configuration with float16. -/
theorem C9_witness :
    ∃ cfg, create_dot_product_attention_backend_config 2 3 4 5 Dtype.f16 1 7 0
        MaskType.CAUSAL 0 none false = .ok cfg ∧
      cfg.cudnn_fmha_backend_config.dot_dimension_numbers =
        forward_dot_blocks 0 := by
  obtain ⟨cfg, h1, _, _, _, _, _, _, _, _, _, _, _, h13, _, _⟩ :=
    C9_backend_config 2 3 4 5 Dtype.f16 1 0 7 MaskType.CAUSAL 0 none false
      (Or.inr rfl)
  exact ⟨cfg, h1, by simpa using h13⟩

end FusedAttn

namespace FusedAttn

/-- Reduction of `_check_qkv_bias_mask_spec` on a rank-4 query spec and a
rank-4 bias spec to its chain of conditions. -/
theorem check_spec_cons4_eq (b0 s0 n0 h0 bb0 bn0 bq0 bk0 : Option String)
    (ks vs : ShardingSpec) :
    _check_qkv_bias_mask_spec [b0, s0, n0, h0] ks vs
        (some [bb0, bn0, bq0, bk0]) =
      if ¬([b0, s0, n0, h0] = ks ∧ ks = vs) then
        .error "Query, key and value should have same sharding."
      else if s0.isSome then
        .error "Sharding on sequence dim is not allowed."
      else if h0.isSome then
        .error "Sharding on head dim is not allowed."
      else if ((bb0.isSome || false) = true ∧ ¬([bb0] = [b0])) ∨
              (bn0.isSome = true ∧ ¬(bn0 = n0)) then
        .error
          "Query and bias should have same sharding on batch and num_head dim."
      else if bq0.isSome ∨ bk0.isSome then
        .error "Sharding on bias sequence dim is not allowed."
      else .ok () := rfl

/-- Reduction of `_check_qkv_bias_mask_spec` on a rank-4 query spec with
no bias. -/
theorem check_spec_none_eq (b0 s0 n0 h0 : Option String)
    (ks vs : ShardingSpec) :
    _check_qkv_bias_mask_spec [b0, s0, n0, h0] ks vs none =
      if ¬([b0, s0, n0, h0] = ks ∧ ks = vs) then
        .error "Query, key and value should have same sharding."
      else if s0.isSome then
        .error "Sharding on sequence dim is not allowed."
      else if h0.isSome then
        .error "Sharding on head dim is not allowed."
      else .ok () := rfl

/-- C2, amended (draft). -/
theorem C2_partitioner (ks vs : ShardingSpec) (bias_spec : Option ShardingSpec)
    (b0 s0 n0 h0 bb0 bn0 bq0 bk0 : Option String) (qs : ShardingSpec)
    (hq : qs = [b0, s0, n0, h0])
    (hbs : bias_spec = none ∨ bias_spec = some [bb0, bn0, bq0, bk0]) :
    (_check_qkv_bias_mask_spec qs ks vs bias_spec = .ok () ↔
      (ks = qs ∧ vs = qs ∧ s0 = none ∧ h0 = none ∧
        (bias_spec = none ∨
          (bias_spec = some [bb0, bn0, bq0, bk0] ∧
           (bb0 = none ∨ bb0 = b0) ∧ (bn0 = none ∨ bn0 = n0) ∧
           bq0 = none ∧ bk0 = none)))) ∧
    (_check_qkv_bias_mask_spec qs ks vs bias_spec = .ok () →
      (_infer_fwd_output_sharding qs ks vs bias_spec false = .ok [qs] ∧
       _infer_bwd_output_sharding qs ks vs bias_spec false =
         .ok [qs, ks, ks] ∧
       ∀ bs, bias_spec = some bs →
         _infer_bwd_output_sharding qs ks vs bias_spec true =
           .ok [qs, ks, ks, bs])) ∧
    (_dot_product_attention_bwd_partition_sharded_impl qs true =
      .ok [Grad.dquery, Grad.dkey, Grad.dvalue, Grad.psum b0 Grad.dbias]) := by
  subst hq
  have hA : (([b0, s0, n0, h0] = ks ∧ ks = vs) ↔
      (ks = [b0, s0, n0, h0] ∧ vs = [b0, s0, n0, h0])) := by
    constructor
    · rintro ⟨x, y⟩
      exact ⟨x.symm, (x.trans y).symm⟩
    · rintro ⟨x, y⟩
      exact ⟨x.symm, x.trans y.symm⟩
  refine ⟨?_, ?_, rfl⟩
  · rcases hbs with hb | hb <;> subst hb
    · rw [check_spec_none_eq]
      by_cases h1 : ([b0, s0, n0, h0] = ks ∧ ks = vs)
      · rw [if_neg (not_not_intro h1)]
        cases s0 with
        | some a => exact iff_of_false (by simp) (fun h => by simp at h)
        | none =>
          cases h0 with
          | some a => exact iff_of_false (by simp) (fun h => by simp at h)
          | none =>
            exact iff_of_true rfl
              ⟨(hA.mp h1).1, (hA.mp h1).2, rfl, rfl, Or.inl rfl⟩
      · rw [if_pos h1]
        exact iff_of_false (by simp) (fun h => h1 (hA.mpr ⟨h.1, h.2.1⟩))
    · rw [check_spec_cons4_eq]
      by_cases h1 : ([b0, s0, n0, h0] = ks ∧ ks = vs)
      · rw [if_neg (not_not_intro h1)]
        cases s0 with
        | some a => exact iff_of_false (by simp) (fun h => by simp at h)
        | none =>
          cases h0 with
          | some a => exact iff_of_false (by simp) (fun h => by simp at h)
          | none =>
            by_cases hC : ((bb0.isSome || false) = true ∧ ¬([bb0] = [b0])) ∨
                (bn0.isSome = true ∧ ¬(bn0 = n0))
            · rw [if_pos hC]
              refine iff_of_false (by simp) (fun h => ?_)
              rcases h with ⟨_, _, _, _, h5 | h5⟩
              · simp at h5
              · rcases h5 with ⟨_, hbb, hbn, _, _⟩
                rcases hC with ⟨hCs, hCne⟩ | ⟨hCs, hCne⟩
                · rcases hbb with hbb | hbb
                  · subst hbb; simp at hCs
                  · exact hCne (by rw [hbb])
                · rcases hbn with hbn | hbn
                  · subst hbn; simp at hCs
                  · exact hCne hbn
            · rw [if_neg hC]
              by_cases hD : (bq0.isSome ∨ bk0.isSome)
              · rw [if_pos hD]
                refine iff_of_false (by simp) (fun h => ?_)
                rcases h with ⟨_, _, _, _, h5 | h5⟩
                · simp at h5
                · rcases h5 with ⟨_, _, _, hbq, hbk⟩
                  rcases hD with hD | hD
                  · subst hbq; simp at hD
                  · subst hbk; simp at hD
              · rw [if_neg hD]
                refine iff_of_true rfl
                  ⟨(hA.mp h1).1, (hA.mp h1).2, rfl, rfl,
                   Or.inr ⟨rfl, ?_, ?_, ?_, ?_⟩⟩
                · cases bb0 with
                  | none => exact Or.inl rfl
                  | some a =>
                    refine Or.inr ?_
                    by_contra hne
                    exact hC (Or.inl ⟨by simp,
                      fun hcontra => hne (by simpa using hcontra)⟩)
                · cases bn0 with
                  | none => exact Or.inl rfl
                  | some a =>
                    refine Or.inr ?_
                    by_contra hne
                    exact hC (Or.inr ⟨by simp, hne⟩)
                · cases bq0 with
                  | none => rfl
                  | some a => exact absurd (Or.inl (by simp)) hD
                · cases bk0 with
                  | none => rfl
                  | some a => exact absurd (Or.inr (by simp)) hD
      · rw [if_pos h1]
        exact iff_of_false (by simp) (fun h => h1 (hA.mpr ⟨h.1, h.2.1⟩))
  · intro h
    refine ⟨?_, ?_, ?_⟩
    · rw [show _infer_fwd_output_sharding [b0, s0, n0, h0] ks vs bias_spec
            false =
          Except.bind (_check_qkv_bias_mask_spec [b0, s0, n0, h0] ks vs
            bias_spec) (fun _ => Except.ok [[b0, s0, n0, h0]]) from rfl, h]
      rfl
    · rw [show _infer_bwd_output_sharding [b0, s0, n0, h0] ks vs bias_spec
            false =
          Except.bind (_check_qkv_bias_mask_spec [b0, s0, n0, h0] ks vs
            bias_spec) (fun _ => Except.ok [[b0, s0, n0, h0], ks, ks])
          from rfl, h]
      rfl
    · intro bs hbs'
      subst hbs'
      rw [show _infer_bwd_output_sharding [b0, s0, n0, h0] ks vs (some bs)
            true =
          Except.bind (_check_qkv_bias_mask_spec [b0, s0, n0, h0] ks vs
            (some bs))
            (fun _ => Except.ok [[b0, s0, n0, h0], ks, ks, bs]) from rfl,
        h]
      rfl

end FusedAttn

namespace FusedAttn

/-- C2, counterexample: query/key/value sharded on mesh axis "x" along
the batch dim, bias present but entirely unsharded: its batch sharding
(`None`) differs from query's (`"x"`), yet the partitioner accepts. -/
theorem C2_counterexample :
    _check_qkv_bias_mask_spec [some "x", none, none, none]
      [some "x", none, none, none] [some "x", none, none, none]
      (some [none, none, none, none]) = .ok () ∧
    ((none : Option String) ≠ some "x") := ⟨by decide, by decide⟩

/-- C2, witness: the amended theorem applied at a concrete
batch-sharded input without bias. -/
theorem C2_witness :
    _check_qkv_bias_mask_spec [some "x", none, none, none]
        [some "x", none, none, none] [some "x", none, none, none] none =
      .ok () ∧
    _dot_product_attention_bwd_partition_sharded_impl
        [some "x", none, none, none] true =
      .ok [Grad.dquery, Grad.dkey, Grad.dvalue,
           Grad.psum (some "x") Grad.dbias] := by
  have h := C2_partitioner [some "x", none, none, none]
    [some "x", none, none, none] none (some "x") none none none
    none none none none [some "x", none, none, none] rfl (Or.inl rfl)
  exact ⟨h.1.mpr ⟨rfl, rfl, rfl, rfl, Or.inl rfl⟩, h.2.2⟩

end FusedAttn

namespace FusedAttn

/-- A list of length 4 is a 4-element literal. -/
theorem list_length_four {α : Type} {l : List α} (h : l.length = 4) :
    ∃ a b c d, l = [a, b, c, d] := by
  rcases l with _ | ⟨a, _ | ⟨b, _ | ⟨c, _ | ⟨d, _ | ⟨e, t⟩⟩⟩⟩⟩
  · simp at h
  · simp at h
  · simp at h
  · simp at h
  · exact ⟨a, b, c, d, rfl⟩
  · simp at h

/-- `check_q_seqlen` accepts iff any supplied vector is int32 with
shape exactly `[qB]`. -/
theorem check_q_seqlen_ok_iff (s : Option TensorInfo) (qB : Nat) :
    check_q_seqlen s qB = .ok () ↔
      ∀ t ∈ s, t.dtype = Dtype.i32 ∧ t.shape = [qB] := by
  cases s with
  | none => simp [check_q_seqlen]
  | some t =>
    obtain ⟨ts, td⟩ := t
    by_cases hd : td = Dtype.i32
    · subst hd
      rcases ts with _ | ⟨x, _ | ⟨y, tt⟩⟩
      · simp [check_q_seqlen]
      · by_cases hx : x = qB
        · subst hx; simp [check_q_seqlen]
        · simp [check_q_seqlen, hx]
      · simp [check_q_seqlen]
    · simp [check_q_seqlen, hd]

/-- `check_kv_seqlen` accepts iff any supplied vector is int32 with
shape exactly `[qB]`. -/
theorem check_kv_seqlen_ok_iff (s : Option TensorInfo) (qB : Nat) :
    check_kv_seqlen s qB = .ok () ↔
      ∀ t ∈ s, t.dtype = Dtype.i32 ∧ t.shape = [qB] := by
  cases s with
  | none => simp [check_kv_seqlen]
  | some t =>
    obtain ⟨ts, td⟩ := t
    by_cases hd : td = Dtype.i32
    · subst hd
      rcases ts with _ | ⟨x, _ | ⟨y, tt⟩⟩
      · simp [check_kv_seqlen]
      · by_cases hx : x = qB
        · subst hx; simp [check_kv_seqlen]
        · simp [check_kv_seqlen, hx]
      · simp [check_kv_seqlen]
    · simp [check_kv_seqlen, hd]

/-- `check_seqlens` accepts iff both vectors pass. -/
theorem check_seqlens_ok_iff (q_seqlen kv_seqlen : Option TensorInfo)
    (qB : Nat) :
    check_seqlens q_seqlen kv_seqlen qB = .ok () ↔
      ((∀ t ∈ q_seqlen, t.dtype = Dtype.i32 ∧ t.shape = [qB]) ∧
       (∀ t ∈ kv_seqlen, t.dtype = Dtype.i32 ∧ t.shape = [qB])) := by
  unfold check_seqlens
  cases hq : check_q_seqlen q_seqlen qB with
  | error e =>
    constructor
    · intro h; exact absurd h (by simp)
    · rintro ⟨hqs, _⟩
      exact absurd ((check_q_seqlen_ok_iff q_seqlen qB).mpr hqs)
        (by rw [hq]; simp)
  | ok u =>
    cases u
    rw [check_kv_seqlen_ok_iff]
    constructor
    · intro h
      exact ⟨(check_q_seqlen_ok_iff q_seqlen qB).mp hq, h⟩
    · rintro ⟨_, h⟩; exact h

/-- `check_bias_and_seqlens` accepts iff any bias is rank 4 with
trailing axes `(qT, vS)` and both seqlen vectors pass. -/
theorem check_bias_and_seqlens_ok_iff
    (bias q_seqlen kv_seqlen : Option TensorInfo) (qT vS qB : Nat) :
    check_bias_and_seqlens bias q_seqlen kv_seqlen qT vS qB = .ok () ↔
      ((∀ b ∈ bias, b.shape.length = 4 ∧ b.shape.getD 2 0 = qT ∧
          b.shape.getD 3 0 = vS) ∧
       (∀ t ∈ q_seqlen, t.dtype = Dtype.i32 ∧ t.shape = [qB]) ∧
       (∀ t ∈ kv_seqlen, t.dtype = Dtype.i32 ∧ t.shape = [qB])) := by
  cases bias with
  | none => simp [check_bias_and_seqlens, check_seqlens_ok_iff]
  | some b =>
    obtain ⟨bs, bd⟩ := b
    rcases bs with _ | ⟨x0, _ | ⟨x1, _ | ⟨x2, _ | ⟨x3, _ | ⟨x4, rest⟩⟩⟩⟩⟩
    · simp [check_bias_and_seqlens]
    · simp [check_bias_and_seqlens]
    · simp [check_bias_and_seqlens]
    · simp [check_bias_and_seqlens]
    · have hred : check_bias_and_seqlens (some ⟨[x0, x1, x2, x3], bd⟩)
          q_seqlen kv_seqlen qT vS qB =
          (if x2 ≠ qT ∨ x3 ≠ vS then
            (.error "Bias must have same seq length as QKV" :
              Except String Unit)
          else check_seqlens q_seqlen kv_seqlen qB) := rfl
      by_cases hx : x2 ≠ qT ∨ x3 ≠ vS
      · rw [hred, if_pos hx]
        constructor
        · intro h; exact absurd h (by simp)
        · rintro ⟨hb, _⟩
          obtain ⟨_, h2, h3⟩ := hb ⟨[x0, x1, x2, x3], bd⟩ rfl
          simp at h2 h3
          rcases hx with hx | hx
          · exact (hx h2).elim
          · exact (hx h3).elim
      · rw [hred, if_neg hx]
        rw [check_seqlens_ok_iff]
        push_neg at hx
        constructor
        · rintro ⟨h1, h2⟩
          refine ⟨?_, h1, h2⟩
          rintro b' hb'
          cases hb'
          exact ⟨by simp, by simpa using hx.1, by simpa using hx.2⟩
        · rintro ⟨_, h1, h2⟩
          exact ⟨h1, h2⟩
    · simp [check_bias_and_seqlens]

end FusedAttn

namespace FusedAttn

/-- C5, amended (draft): the validator accepts iff ranks are 4, dtypes
are a matching 16-bit float kind, batch and head-size agree pairwise,
KEY and VALUE agree on head-count and sequence length (the query
head-count is not constrained), any bias is rank 4 with trailing axes
(query-seq, kv-seq), and any seqlen vector is an int32 vector of length
batch. -/
theorem C5_check_layout (query key value : TensorInfo)
    (bias q_seqlen kv_seqlen : Option TensorInfo)
    (layout : AttentionLayout) :
    check_layout query key value bias q_seqlen kv_seqlen layout = .ok () ↔
      (query.shape.length = 4 ∧ key.shape.length = 4 ∧
       value.shape.length = 4 ∧
       (query.dtype = Dtype.bf16 ∨ query.dtype = Dtype.f16) ∧
       key.dtype = query.dtype ∧ value.dtype = query.dtype ∧
       key.shape.getD 0 0 = query.shape.getD 0 0 ∧
       value.shape.getD 0 0 = query.shape.getD 0 0 ∧
       key.shape.getD 3 0 = query.shape.getD 3 0 ∧
       value.shape.getD 3 0 = query.shape.getD 3 0 ∧
       value.shape.getD (headCountIdx layout) 0 =
         key.shape.getD (headCountIdx layout) 0 ∧
       value.shape.getD (seqIdx layout) 0 =
         key.shape.getD (seqIdx layout) 0 ∧
       (∀ b ∈ bias, b.shape.length = 4 ∧
          b.shape.getD 2 0 = query.shape.getD (seqIdx layout) 0 ∧
          b.shape.getD 3 0 = value.shape.getD (seqIdx layout) 0) ∧
       (∀ t ∈ q_seqlen, t.dtype = Dtype.i32 ∧
          t.shape = [query.shape.getD 0 0]) ∧
       (∀ t ∈ kv_seqlen, t.dtype = Dtype.i32 ∧
          t.shape = [query.shape.getD 0 0])) := by
  obtain ⟨qs, qd⟩ := query
  obtain ⟨ks, kd⟩ := key
  obtain ⟨vs, vd⟩ := value
  unfold check_layout
  dsimp only
  by_cases h1 : qs.length = 4
  case neg =>
    rw [if_pos h1]
    exact iff_of_false (by simp) (fun h => h1 h.1)
  case pos =>
    rw [if_neg (not_not_intro h1)]
    by_cases h2 : (qs.length = ks.length ∧ ks.length = vs.length)
    case neg =>
      rw [if_pos h2]
      exact iff_of_false (by simp)
        (fun h => h2 ⟨by rw [h.1, h.2.1], by rw [h.2.1, h.2.2.1]⟩)
    case pos =>
      rw [if_neg (not_not_intro h2)]
      by_cases h3 : (qd = Dtype.bf16 ∨ qd = Dtype.f16)
      case neg =>
        rw [if_pos h3]
        exact iff_of_false (by simp) (fun h => h3 h.2.2.2.1)
      case pos =>
        rw [if_neg (not_not_intro h3)]
        by_cases h4 : (qd = kd ∧ kd = vd)
        case neg =>
          rw [if_pos h4]
          exact iff_of_false (by simp)
            (fun h => h4 ⟨h.2.2.2.2.1.symm,
              h.2.2.2.2.1.trans h.2.2.2.2.2.1.symm⟩)
        case pos =>
          rw [if_neg (not_not_intro h4)]
          obtain ⟨a0, a1, a2, a3, rfl⟩ := list_length_four h1
          have hk4 : ks.length = 4 := by simpa using h2.1.symm
          obtain ⟨c0, c1, c2, c3, rfl⟩ := list_length_four hk4
          have hv4 : vs.length = 4 := by simpa using h2.2.symm
          obtain ⟨d0, d1, d2, d3, rfl⟩ := list_length_four hv4
          cases layout
          case BTNH =>
            dsimp only [seqIdx, headCountIdx]
            simp only [if_neg (show
              ¬(AttentionLayout.BTNH = AttentionLayout.BNTH) from by simp)]
            by_cases h5 : (a0 = c0 ∧ c0 = d0)
            case neg =>
              rw [if_pos h5]
              refine iff_of_false (by simp) (fun h => ?_)
              obtain ⟨_, _, _, _, _, _, hA7, hA8, _⟩ := h
              exact h5 ⟨(hA7 : c0 = a0).symm,
                (hA7 : c0 = a0).trans ((hA8 : d0 = a0)).symm⟩
            case pos =>
              rw [if_neg (not_not_intro h5)]
              by_cases h6 : (a3 = c3 ∧ c3 = d3)
              case neg =>
                rw [if_pos h6]
                refine iff_of_false (by simp) (fun h => ?_)
                obtain ⟨_, _, _, _, _, _, _, _, hA9, hA10, _⟩ := h
                exact h6 ⟨(hA9 : c3 = a3).symm,
                  (hA9 : c3 = a3).trans ((hA10 : d3 = a3)).symm⟩
              case pos =>
                rw [if_neg (not_not_intro h6)]
                by_cases h7 : c2 = d2
                case neg =>
                  rw [if_pos h7]
                  refine iff_of_false (by simp) (fun h => ?_)
                  obtain ⟨_, _, _, _, _, _, _, _, _, _, hA11, _⟩ := h
                  exact h7 ((hA11 : d2 = c2)).symm
                case pos =>
                  rw [if_neg (not_not_intro h7)]
                  by_cases h8 : c1 = d1
                  case neg =>
                    rw [if_pos h8]
                    refine iff_of_false (by simp) (fun h => ?_)
                    obtain ⟨_, _, _, _, _, _, _, _, _, _, _, hA12, _⟩ := h
                    exact h8 ((hA12 : d1 = c1)).symm
                  case pos =>
                    rw [if_neg (not_not_intro h8)]
                    rw [check_bias_and_seqlens_ok_iff]
                    constructor
                    · rintro ⟨hb, hq', hk'⟩
                      exact ⟨rfl, rfl, rfl, h3, h4.1.symm,
                        (h4.1.trans h4.2).symm, h5.1.symm,
                        (h5.1.trans h5.2).symm, h6.1.symm,
                        (h6.1.trans h6.2).symm, h7.symm, h8.symm,
                        hb, hq', hk'⟩
                    · rintro ⟨_, _, _, _, _, _, _, _, _, _, _, _,
                        hb, hq', hk'⟩
                      exact ⟨hb, hq', hk'⟩
          case BNTH =>
            dsimp only [seqIdx, headCountIdx]
            simp only [show (AttentionLayout.BNTH = AttentionLayout.BNTH) =
              True from by simp, if_true]
            by_cases h5 : (a0 = c0 ∧ c0 = d0)
            case neg =>
              rw [if_pos h5]
              refine iff_of_false (by simp) (fun h => ?_)
              obtain ⟨_, _, _, _, _, _, hA7, hA8, _⟩ := h
              exact h5 ⟨(hA7 : c0 = a0).symm,
                (hA7 : c0 = a0).trans ((hA8 : d0 = a0)).symm⟩
            case pos =>
              rw [if_neg (not_not_intro h5)]
              by_cases h6 : (a3 = c3 ∧ c3 = d3)
              case neg =>
                rw [if_pos h6]
                refine iff_of_false (by simp) (fun h => ?_)
                obtain ⟨_, _, _, _, _, _, _, _, hA9, hA10, _⟩ := h
                exact h6 ⟨(hA9 : c3 = a3).symm,
                  (hA9 : c3 = a3).trans ((hA10 : d3 = a3)).symm⟩
              case pos =>
                rw [if_neg (not_not_intro h6)]
                by_cases h7 : c1 = d1
                case neg =>
                  rw [if_pos h7]
                  refine iff_of_false (by simp) (fun h => ?_)
                  obtain ⟨_, _, _, _, _, _, _, _, _, _, hA11, _⟩ := h
                  exact h7 ((hA11 : d1 = c1)).symm
                case pos =>
                  rw [if_neg (not_not_intro h7)]
                  by_cases h8 : c2 = d2
                  case neg =>
                    rw [if_pos h8]
                    refine iff_of_false (by simp) (fun h => ?_)
                    obtain ⟨_, _, _, _, _, _, _, _, _, _, _, hA12, _⟩ := h
                    exact h8 ((hA12 : d2 = c2)).symm
                  case pos =>
                    rw [if_neg (not_not_intro h8)]
                    rw [check_bias_and_seqlens_ok_iff]
                    constructor
                    · rintro ⟨hb, hq', hk'⟩
                      exact ⟨rfl, rfl, rfl, h3, h4.1.symm,
                        (h4.1.trans h4.2).symm, h5.1.symm,
                        (h5.1.trans h5.2).symm, h6.1.symm,
                        (h6.1.trans h6.2).symm, h7.symm, h8.symm,
                        hb, hq', hk'⟩
                    · rintro ⟨_, _, _, _, _, _, _, _, _, _, _, _,
                        hb, hq', hk'⟩
                      exact ⟨hb, hq', hk'⟩

end FusedAttn

namespace FusedAttn

/-- C5, counterexample: a BTNH input whose query has 4 heads while key
and value have 2 heads is accepted by `check_layout` (the validator
never compares the query head-count with key/value's), although the
claim requires head-count to agree pairwise across query/key/value. -/
theorem C5_counterexample :
    check_layout ⟨[1, 2, 4, 8], Dtype.f16⟩ ⟨[1, 2, 2, 8], Dtype.f16⟩
      ⟨[1, 2, 2, 8], Dtype.f16⟩ none none none AttentionLayout.BTNH =
      .ok () ∧
    [1, 2, 4, 8].getD 2 0 ≠ [1, 2, 2, 8].getD 2 0 :=
  ⟨by decide, by decide⟩

end FusedAttn
